import Mathlib

/-!
Verification of the Polly-API client toolkit.

Shallow embedding of `fetch_polls.py` and `register_user.py`:
the transport wrappers `fetch_polls` and `register_user`, the pagination
aggregator `fetch_all_polls`, and the presentation formatter `display_polls`.

The network is modelled by an oracle (`HttpResp`, or a function
`Nat → Nat → HttpResp` mapping a `(skip, limit)` request to its outcome).
JSON bodies are modelled by the inductive `Json`; Python's dynamic
operations on them (`len`, truthiness, iteration, `str`) are modelled by
total Lean functions returning `Option` where Python would raise.
Functions that can raise an uncaught Python exception return
`Except PyExn`.
-/

/-- A decoded JSON value, as produced by `response.json()`. -/
inductive Json where
  | null
  | bool (b : Bool)
  | num (n : Int)
  | str (s : String)
  | arr (xs : List Json)
  | obj (fields : List (String × Json))


/-- Python exceptions that the source code can raise without catching them. -/
inductive PyExn where
  | typeError
  | attributeError
  | zeroDivisionError


/-- Python `len()` on a JSON-like value: `none` models a raised `TypeError`. -/
def Json.pyLen : Json → Option Nat
  | .arr xs => some xs.length
  | .str s => some s.length
  | .obj fs => some fs.length
  | _ => none

/-- Python truthiness (`if x:`) of a JSON-like value. -/
def Json.truthy : Json → Bool
  | .null => false
  | .bool b => b
  | .num n => n != 0
  | .str s => !s.isEmpty
  | .arr xs => !xs.isEmpty
  | .obj fs => !fs.isEmpty

/-- Python iteration over a JSON-like value (as in `list.extend(x)` or
`for o in x`): arrays yield their elements, strings their characters,
dicts their keys; `none` models a raised `TypeError`. -/
def Json.pyElems : Json → Option (List Json)
  | .arr xs => some xs
  | .str s => some (s.toList.map (fun c => .str (String.singleton c)))
  | .obj fs => some (fs.map (fun p => .str p.1))
  | _ => none

mutual

/-- Model of Python `repr()` on JSON-like values. -/
def Json.pyRepr : Json → String
  | .null => "None"
  | .bool true => "True"
  | .bool false => "False"
  | .num n => toString n
  | .str s => "\x27" ++ s ++ "\x27"
  | .arr xs => "[" ++ Json.pyReprElems xs ++ "]"
  | .obj fs => "\x7b" ++ Json.pyReprFields fs ++ "\x7d"

/-- Comma-separated `repr()` of list elements. -/
def Json.pyReprElems : List Json → String
  | [] => ""
  | [x] => Json.pyRepr x
  | x :: y :: xs => Json.pyRepr x ++ ", " ++ Json.pyReprElems (y :: xs)

/-- Comma-separated `repr()` of dict entries. -/
def Json.pyReprFields : List (String × Json) → String
  | [] => ""
  | [(k, v)] => "\x27" ++ k ++ "\x27: " ++ Json.pyRepr v
  | (k, v) :: f :: fs =>
      "\x27" ++ k ++ "\x27: " ++ Json.pyRepr v ++ ", " ++ Json.pyReprFields (f :: fs)

end

/-- Model of Python `str()` as used in f-string interpolation:
the identity on strings, `repr()` on everything else. -/
def Json.pyStr : Json → String
  | .str s => s
  | v => v.pyRepr

/-- The outcome of one HTTP exchange (`requests.get`/`requests.post`
followed by `response.json()`), as seen by the wrapper code:
either one of the exceptions it catches, or a status code together
with the decoded JSON body. -/
inductive HttpResp where
  | connError
  | jsonDecodeError
  | requestError (msg : String)
  | resp (status : Nat) (body : Json)


/-- The connection-failure message (identical in both source files). -/
def connErrorMsg (base_url : String) : String :=
  "❌ Could not connect to the API at " ++ base_url ++ ". Make sure the server is running."

/-- The JSON-decode-failure message (identical in both source files). -/
def jsonErrorMsg : String :=
  "❌ Invalid JSON response from server"

/-- The generic request-failure message (identical in both source files). -/
def requestErrorMsg (e : String) : String :=
  "❌ Request failed: " ++ e

/-- The dictionary returned by `fetch_polls`: either the success shape
`{success: True, status_code, data, pagination: {skip, limit, returned_count}}`
or the failure shape `{success: False, status_code?, error}` (local faults
carry no status code and a string message as `error`). -/
inductive FetchResult where
  | success (status_code : Nat) (data : Json) (skip limit returned_count : Nat)
  | failure (status_code : Option Nat) (error : Json)


/-- Embedding of `fetch_polls` (src/fetch_polls.py, lines 12-119).
`resp` is the outcome of `requests.get` + `response.json()` for this call.
Status 200 computes `len(response_data)` (a raised `TypeError` when the
body has no length); any other status returns the failure dictionary with
the decoded body; the three caught exception classes each return a failure
dictionary with a message and no status code. -/
def fetch_polls (skip limit : Nat) (base_url : String) (resp : HttpResp) :
    Except PyExn FetchResult :=
  match resp with
  | .connError => .ok (.failure none (.str (connErrorMsg base_url)))
  | .jsonDecodeError => .ok (.failure none (.str jsonErrorMsg))
  | .requestError e => .ok (.failure none (.str (requestErrorMsg e)))
  | .resp status response_data =>
    if status = 200 then
      match response_data.pyLen with
      | some n => .ok (.success status response_data skip limit n)
      | none => .error .typeError
    else
      .ok (.failure (some status) response_data)

/-- The dictionary returned by `register_user`: either
`{success: True, status_code, data}` or `{success: False, status_code?, error}`. -/
inductive RegistrationResult where
  | success (status_code : Nat) (data : Json)
  | failure (status_code : Option Nat) (error : Json)


/-- Embedding of `register_user` (src/register_user.py, lines 11-93).
Status 200 evaluates `response_data.get('id')` for the success print,
which raises `AttributeError` unless the decoded body is a dict; status 400
and every other non-200 status return the same failure dictionary (the two
branches differ only in the printed text); the caught exception classes
mirror `fetch_polls`. -/
def register_user (username password base_url : String) (resp : HttpResp) :
    Except PyExn RegistrationResult :=
  match resp with
  | .connError => .ok (.failure none (.str (connErrorMsg base_url)))
  | .jsonDecodeError => .ok (.failure none (.str jsonErrorMsg))
  | .requestError e => .ok (.failure none (.str (requestErrorMsg e)))
  | .resp status response_data =>
    if status = 200 then
      match response_data with
      | .obj _ => .ok (.success status response_data)
      | _ => .error .attributeError
    else if status = 400 then
      .ok (.failure (some status) response_data)
    else
      .ok (.failure (some status) response_data)

/-- The mutable state of the `while True` loop in `fetch_all_polls`:
`skip`, `total_fetched` and the accumulator `all_polls`. -/
structure LoopState where
  skip : Nat
  total_fetched : Nat
  all_polls : List Json

/-- The limit requested for the current page (src/fetch_polls.py, lines
145-152): with `max_polls` set it is `min(page_size, max_polls -
total_fetched)`, and `none` models the `break` taken when the remainder
`max_polls - total_fetched` is not positive. -/
def current_limit (page_size : Nat) (max_polls : Option Nat) (total_fetched : Nat) :
    Option Nat :=
  match max_polls with
  | some m => if m ≤ total_fetched then none else some (min page_size (m - total_fetched))
  | none => some page_size

/-- The `total_requests` expression of the final success dictionary
(src/fetch_polls.py, line 184): `skip // page_size + (1 if skip % page_size > 0 else 0)`. -/
def total_requests (skip page_size : Nat) : Nat :=
  skip / page_size + (if skip % page_size > 0 then 1 else 0)

/-- The value of a call to `fetch_all_polls`: `diverge` models a loop that
is still running after the given fuel, `raised` an uncaught Python
exception, `failure` the failure dictionary of `fetch_polls` returned
unchanged (line 158), and `success` the final combined dictionary
(lines 178-186). -/
inductive AggOutcome where
  | diverge
  | raised (e : PyExn)
  | failure (r : FetchResult)
  | success (data : List Json) (total_count page_size total_requests : Nat)

/-- Building the final success dictionary of `fetch_all_polls` from the
loop state (src/fetch_polls.py, lines 178-186); `skip // page_size`
raises `ZeroDivisionError` when `page_size` is `0`. -/
def finish (page_size : Nat) (st : LoopState) : AggOutcome :=
  if page_size = 0 then .raised .zeroDivisionError
  else .success st.all_polls st.total_fetched page_size (total_requests st.skip page_size)

/-- One iteration of the loop either finishes with an outcome or continues
with an updated state. -/
inductive StepOut where
  | done (o : AggOutcome)
  | next (st : LoopState)

/-- One iteration of the `while True` loop of `fetch_all_polls`
(src/fetch_polls.py, lines 144-174): compute `current_limit` (breaking when
the `max_polls` remainder is not positive), call `fetch_polls`, return its
result unchanged if it is a failure, break on an empty (falsy) page,
extend `all_polls` and advance `total_fetched` and `skip` by the number of
items actually returned, and break after a short page. -/
def loop_step (source : Nat → Nat → HttpResp) (base_url : String) (page_size : Nat)
    (max_polls : Option Nat) (st : LoopState) : StepOut :=
  match current_limit page_size max_polls st.total_fetched with
  | none => .done (finish page_size st)
  | some lim =>
    match fetch_polls st.skip lim base_url (source st.skip lim) with
    | .error e => .done (.raised e)
    | .ok (.failure sc err) => .done (.failure (.failure sc err))
    | .ok (.success status data sk lm rc) =>
      if data.truthy then
        match data.pyElems with
        | none => .done (.raised .typeError)
        | some current_polls =>
          let st' : LoopState :=
            ⟨st.skip + current_polls.length, st.total_fetched + current_polls.length,
             st.all_polls ++ current_polls⟩
          if current_polls.length < lim then .done (finish page_size st') else .next st'
      else .done (finish page_size st)

/-- The `while True` loop of `fetch_all_polls`, iterated up to `fuel` times. -/
def fetch_all_polls_loop (source : Nat → Nat → HttpResp) (base_url : String)
    (page_size : Nat) (max_polls : Option Nat) : Nat → LoopState → AggOutcome
  | 0, _ => .diverge
  | fuel + 1, st =>
    match loop_step source base_url page_size max_polls st with
    | .done o => o
    | .next st' => fetch_all_polls_loop source base_url page_size max_polls fuel st'

/-- Embedding of `fetch_all_polls` (src/fetch_polls.py, lines 122-186):
the loop run from the initial state `skip = 0`, `total_fetched = 0`,
`all_polls = []`. -/
def fetch_all_polls (source : Nat → Nat → HttpResp) (base_url : String)
    (page_size : Nat) (max_polls : Option Nat) (fuel : Nat) : AggOutcome :=
  fetch_all_polls_loop source base_url page_size max_polls fuel ⟨0, 0, []⟩

/-- The simulated paginated data source over a fixed list of records: a
request `(skip, limit)` is answered with status 200 and the records from
position `skip` on, at most `limit` of them, in their original order. -/
def simSource (records : List Json) (skip limit : Nat) : HttpResp :=
  .resp 200 (.arr ((records.drop skip).take limit))

/-- A Python dictionary with string keys, as decoded from a JSON object:
the element type of `display_polls`'s input (`List[Dict[str, Any]]`). -/
abbrev PyDict := List (String × Json)

/-- Python `d.get(k, default)` on a dictionary. -/
def dict_get (d : PyDict) (k : String) (default : Json) : Json :=
  (d.lookup k).getD default

/-- The `"=" * 60` separator printed under the header. -/
def sep60 : String := String.mk (List.replicate 60 '=')

/-- The `"-" * 40` separator printed after each poll. -/
def dash40 : String := String.mk (List.replicate 40 '-')

/-- One line of the options enumeration (src/fetch_polls.py, line 221):
`option.get` raises `AttributeError` unless the element is a dict. -/
def render_option (idx : Nat) (option : Json) : Except PyExn String :=
  match option with
  | .obj fs =>
      .ok ("   " ++ toString idx ++ ". " ++ (Json.pyStr (dict_get fs "text" (.str "N/A")))
        ++ " (ID: " ++ (Json.pyStr (dict_get fs "id" (.str "N/A"))) ++ ")")
  | _ => .error .attributeError

/-- The `for i, option in enumerate(options, 1)` loop (src/fetch_polls.py,
lines 220-221). -/
def render_options (idx : Nat) : List Json → Except PyExn (List String)
  | [] => .ok []
  | option :: rest => do
    let line ← render_option idx option
    let lines ← render_options (idx + 1) rest
    .ok (line :: lines)

/-- The `try`/`except` block computing `formatted_date` (src/fetch_polls.py,
lines 205-209).  `format_created_at` models `datetime.fromisoformat`
composed with `strftime("%Y-%m-%d %H:%M:%S")`, returning `none` when
`fromisoformat` raises `ValueError`.  The `try` block indexes
`poll["created_at"]` and calls `.replace` on it, so a present but
non-string value raises an uncaught `AttributeError` (only `ValueError`
and `KeyError` are caught); the `except` branch re-reads the field with
`poll.get("created_at", "Unknown")`. -/
def formatted_date (format_created_at : String → Option String) (poll : PyDict) :
    Except PyExn Json :=
  match poll.lookup "created_at" with
  | none => pure (dict_get poll "created_at" (.str "Unknown"))
  | some (.str s) =>
    match format_created_at (s.replace "Z" "+00:00") with
    | some d => pure (.str d)
    | none => pure (dict_get poll "created_at" (.str "Unknown"))
  | some _ => .error .attributeError

/-- The options block of the loop body (src/fetch_polls.py, lines 217-223):
`options = poll.get("options", [])`; a truthy value is enumerated (raising
`TypeError` when it is not iterable), a falsy one prints the "None" marker. -/
def options_lines (poll : PyDict) : Except PyExn (List String) :=
  let options := dict_get poll "options" (.arr [])
  if options.truthy then
    match options.pyElems with
    | none => .error .typeError
    | some opts => do
      let lines ← render_options 1 opts
      pure ("📝 Options:" :: lines)
  else
    pure ["📝 Options: None"]

/-- The body of the `for poll in polls_data` loop of `display_polls`
(src/fetch_polls.py, lines 203-225), as the list of lines it prints:
the `formatted_date` computation runs first, then the field lines are
printed (`poll.get` with a placeholder default), then the options block. -/
def render_poll (format_created_at : String → Option String) (poll : PyDict) :
    Except PyExn (List String) := do
  let fd : Json ← formatted_date format_created_at poll
  let optionLines : List String ← options_lines poll
  pure (("\n🗳️  Poll ID: " ++ Json.pyStr (dict_get poll "id" (.str "N/A"))) ::
        ("❓ Question: " ++ Json.pyStr (dict_get poll "question" (.str "N/A"))) ::
        ("👤 Owner ID: " ++ Json.pyStr (dict_get poll "owner_id" (.str "N/A"))) ::
        ("📅 Created: " ++ Json.pyStr fd) ::
        (optionLines ++ [dash40]))

/-- The `for poll in polls_data` loop of `display_polls`, concatenating the
lines printed for each poll. -/
def render_polls (format_created_at : String → Option String) :
    List PyDict → Except PyExn (List String)
  | [] => .ok []
  | poll :: rest => do
    let lines ← render_poll format_created_at poll
    let restLines ← render_polls format_created_at rest
    .ok (lines ++ restLines)

/-- Embedding of `display_polls` (src/fetch_polls.py, lines 189-225), as
the list of lines it prints: an empty input prints the single
"No polls to display" notice; otherwise a header, the separator, and the
lines of each poll. -/
def display_polls (format_created_at : String → Option String)
    (polls_data : List PyDict) : Except PyExn (List String) :=
  if polls_data.isEmpty then .ok ["📭 No polls to display"]
  else do
    let blocks ← render_polls format_created_at polls_data
    .ok (("\n📊 Displaying " ++ toString polls_data.length ++ " polls:") :: sep60 :: blocks)

/-- Whether a value found under `"created_at"` keeps `display_polls` from
raising: the `try` block only handles strings without an uncaught exception. -/
def Json.isStr : Json → Bool
  | .str _ => true
  | _ => false

/-- Whether a value is a JSON object (a Python dict). -/
def Json.isObj : Json → Bool
  | .obj _ => true
  | _ => false

/-- Whether a value found under `"options"` keeps `display_polls` from
raising: it is either falsy (the `else` branch prints the "None" marker)
or a list whose elements are all dicts. -/
def safe_options (v : Json) : Bool :=
  !v.truthy || (match v with | .arr xs => xs.all Json.isObj | _ => false)

/-- A poll record on which `display_polls` does not raise: `created_at`,
when present, is a string, and `options`, when present, is falsy or a list
of dicts. -/
def SafeRecord (poll : PyDict) : Bool :=
  (match poll.lookup "created_at" with | none => true | some v => v.isStr) &&
  (match poll.lookup "options" with | none => true | some v => safe_options v)


/-- A data source that never returns more items than the requested limit:
whenever a request `(skip, limit)` is answered with status 200 and an
iterable body, the body has at most `limit` elements. -/
def BoundedSource (source : Nat → Nat → HttpResp) : Prop :=
  ∀ skip limit body xs, source skip limit = .resp 200 body →
    body.pyElems = some xs → xs.length ≤ limit


/-- One loop iteration against the simulated source with no `max_polls`: the page is the slice `records[skip : skip + page_size]`; an empty page or a short page ends the loop, a full page continues. -/
lemma loop_step_sim_eq (records : List Json) (bu : String) (p k t : Nat) (acc : List Json) :
    loop_step (simSource records) bu p none ⟨k, t, acc⟩ =
      (if ((records.drop k).take p).isEmpty then .done (finish p ⟨k, t, acc⟩)
       else if ((records.drop k).take p).length < p then
         .done (finish p ⟨k + ((records.drop k).take p).length,
                          t + ((records.drop k).take p).length,
                          acc ++ (records.drop k).take p⟩)
       else .next ⟨k + ((records.drop k).take p).length,
                   t + ((records.drop k).take p).length,
                   acc ++ (records.drop k).take p⟩) := by
  simp only [loop_step, current_limit, simSource, fetch_polls, Json.pyLen, Json.truthy,
    Json.pyElems, if_pos rfl]
  by_cases h : ((records.drop k).take p).isEmpty <;> simp [h]


/-- Against the simulated source with no `max_polls`, the loop started at `skip = total_fetched = k` accumulates exactly the remaining records and finishes with `skip = total_fetched`-advance equal to the number of remaining records. -/
lemma loop_sim (records : List Json) (bu : String) (p : Nat) (hp : 0 < p) :
    ∀ fuel k t acc, k ≤ records.length → records.length - k < fuel →
    fetch_all_polls_loop (simSource records) bu p none fuel ⟨k, t, acc⟩
      = .success (acc ++ records.drop k) (t + (records.length - k)) p
          (total_requests records.length p) := by
  intro fuel
  induction fuel with
  | zero => intro k t acc hk hf; omega
  | succ n ih =>
    intro k t acc hk hf
    rw [show fetch_all_polls_loop (simSource records) bu p none (n+1) ⟨k, t, acc⟩
        = (match loop_step (simSource records) bu p none ⟨k, t, acc⟩ with
           | .done o => o
           | .next st' => fetch_all_polls_loop (simSource records) bu p none n st') from rfl,
      loop_step_sim_eq]
    by_cases hend : records.length ≤ k
    · have hkN : k = records.length := le_antisymm hk hend
      have hdrop : records.drop k = [] := List.drop_eq_nil_of_le hend
      simp [hdrop, finish, Nat.pos_iff_ne_zero.mp hp, hkN]
    · push_neg at hend
      have hdropne : records.drop k ≠ [] := by
        intro h
        have := List.length_drop k records
        rw [h] at this
        simp at this
        omega
      have hsl_len : ((records.drop k).take p).length = min p (records.length - k) := by
        simp [List.length_take, List.length_drop]
      have hne : ¬ ((records.drop k).take p).isEmpty := by
        rw [List.isEmpty_iff]
        intro h
        have := congrArg List.length h
        rw [hsl_len] at this
        simp at this
        omega
      rw [if_neg hne]
      by_cases hshort : ((records.drop k).take p).length < p
      · rw [if_pos hshort]
        have hlt : records.length - k < p := by omega
        have hL : ((records.drop k).take p).length = records.length - k := by omega
        have htake : (records.drop k).take p = records.drop k := by
          apply List.take_of_length_le
          rw [List.length_drop]
          omega
        rw [htake] at hL ⊢
        rw [hL]
        simp [finish, Nat.pos_iff_ne_zero.mp hp]
        have hkn : k + (records.length - k) = records.length := by omega
        rw [hkn]
      · rw [if_neg hshort]
        have hL : ((records.drop k).take p).length = p := by omega
        have hple : p ≤ records.length - k := by omega
        rw [hL]
        show fetch_all_polls_loop (simSource records) bu p none n
            ⟨k + p, t + p, acc ++ (records.drop k).take p⟩ = _
        rw [ih (k + p) (t + p) (acc ++ (records.drop k).take p) (by omega) (by omega)]
        have hdrop2 : records.drop (k + p) = (records.drop k).drop p := by
          rw [List.drop_drop]
        rw [hdrop2, List.append_assoc, List.take_append_drop]
        have : t + p + (records.length - (k + p)) = t + (records.length - k) := by omega
        rw [this]


/-- When the `max_polls` remainder is not positive the iteration breaks out of the loop at once with the success dictionary of the current state. -/
lemma loop_step_max_done (source : Nat → Nat → HttpResp) (bu : String) (p M : Nat)
    (st : LoopState) (h : M ≤ st.total_fetched) :
    loop_step source bu p (some M) st = .done (finish p st) := by
  simp only [loop_step, current_limit, if_pos h]


/-- One loop iteration against the simulated source with `max_polls = M` still to reach: the page is the slice of length `min page_size (M - total_fetched)`. -/
lemma loop_step_sim_max_eq (records : List Json) (bu : String) (p M k t : Nat)
    (acc : List Json) (h : ¬ M ≤ t) :
    loop_step (simSource records) bu p (some M) ⟨k, t, acc⟩ =
      (if ((records.drop k).take (min p (M - t))).isEmpty then
         .done (finish p ⟨k, t, acc⟩)
       else if ((records.drop k).take (min p (M - t))).length < min p (M - t) then
         .done (finish p ⟨k + ((records.drop k).take (min p (M - t))).length,
                          t + ((records.drop k).take (min p (M - t))).length,
                          acc ++ (records.drop k).take (min p (M - t))⟩)
       else .next ⟨k + ((records.drop k).take (min p (M - t))).length,
                   t + ((records.drop k).take (min p (M - t))).length,
                   acc ++ (records.drop k).take (min p (M - t))⟩) := by
  simp only [loop_step, current_limit, simSource, fetch_polls, Json.pyLen, Json.truthy,
    Json.pyElems, if_neg h, if_pos rfl]
  by_cases h2 : ((records.drop k).take (min p (M - t))).isEmpty <;> simp [h2]


/-- Against the simulated source with `max_polls = M < N`, the loop started at `skip = total_fetched = k ≤ M` accumulates exactly the records up to position `M`. -/
lemma loop_sim_max (records : List Json) (bu : String) (p M : Nat) (hp : 0 < p)
    (hMN : M < records.length) :
    ∀ fuel k acc, k ≤ M → M - k < fuel →
    fetch_all_polls_loop (simSource records) bu p (some M) fuel ⟨k, k, acc⟩
      = .success (acc ++ (records.drop k).take (M - k)) M p (total_requests M p) := by
  intro fuel
  induction fuel with
  | zero => intro k acc hk hf; omega
  | succ n ih =>
    intro k acc hk hf
    rw [show fetch_all_polls_loop (simSource records) bu p (some M) (n+1) ⟨k, k, acc⟩
        = (match loop_step (simSource records) bu p (some M) ⟨k, k, acc⟩ with
           | .done o => o
           | .next st' => fetch_all_polls_loop (simSource records) bu p (some M) n st') from rfl]
    by_cases hkM : M ≤ k
    · have hkM' : k = M := by omega
      rw [loop_step_max_done (simSource records) bu p M ⟨k, k, acc⟩ hkM]
      simp [finish, Nat.pos_iff_ne_zero.mp hp, hkM']
    · push_neg at hkM
      rw [loop_step_sim_max_eq records bu p M k k acc (by omega)]
      have hslen : ((records.drop k).take (min p (M - k))).length = min p (M - k) := by
        simp only [List.length_take, List.length_drop]
        omega
      have hne : ((records.drop k).take (min p (M - k))).isEmpty = false := by
        apply Bool.eq_false_iff.mpr
        intro h
        rw [List.isEmpty_iff] at h
        rw [h] at hslen
        simp only [List.length_nil] at hslen
        omega
      rw [hne, if_neg (by simp), hslen, if_neg (by omega)]
      show fetch_all_polls_loop (simSource records) bu p (some M) n
          ⟨k + min p (M - k), k + min p (M - k),
           acc ++ (records.drop k).take (min p (M - k))⟩ = _
      rw [ih (k + min p (M - k)) (acc ++ (records.drop k).take (min p (M - k)))
        (by omega) (by omega)]
      have key : (records.drop k).take (min p (M - k))
            ++ (records.drop (k + min p (M - k))).take (M - (k + min p (M - k)))
          = (records.drop k).take (M - k) := by
        have h1 : M - k = min p (M - k) + (M - (k + min p (M - k))) := by omega
        conv_rhs => rw [h1]
        rw [List.take_add, List.drop_drop]
      rw [List.append_assoc, key]


/-- A success dictionary of `fetch_polls` can only come from a status-200 response whose body is the `data` field, with `skip` and `limit` echoed and `returned_count` equal to `len(data)`. -/
lemma fetch_polls_ok_success_inv (skip limit : Nat) (bu : String) (resp : HttpResp)
    (status : Nat) (data : Json) (sk lm rc : Nat)
    (h : fetch_polls skip limit bu resp = .ok (.success status data sk lm rc)) :
    resp = .resp 200 data ∧ status = 200 ∧ sk = skip ∧ lm = limit ∧
      data.pyLen = some rc := by
  cases resp with
  | connError => exact absurd h (by simp [fetch_polls])
  | jsonDecodeError => exact absurd h (by simp [fetch_polls])
  | requestError msg => exact absurd h (by simp [fetch_polls])
  | resp s body =>
    simp only [fetch_polls] at h
    by_cases h200 : s = 200
    · subst h200
      rw [if_pos rfl] at h
      rcases hlen : body.pyLen with _ | n
      · rw [hlen] at h
        cases h
      · rw [hlen] at h
        simp only [Except.ok.injEq, FetchResult.success.injEq] at h
        obtain ⟨h1, h2, h3, h4, h5⟩ := h
        subst h1 h2 h3 h4 h5
        exact ⟨rfl, rfl, rfl, rfl, hlen⟩
    · rw [if_neg h200] at h
      cases h


/-- A truthy JSON value that Python can iterate yields at least one element. -/
lemma truthy_elems_ne_nil (body : Json) (items : List Json)
    (ht : body.truthy = true) (he : body.pyElems = some items) : items ≠ [] := by
  cases body with
  | null => cases he
  | bool b => cases he
  | num n => cases he
  | str s =>
    intro hnil
    simp only [Json.pyElems, Option.some.injEq] at he
    rw [hnil] at he
    rw [List.map_eq_nil_iff] at he
    have hs : s = "" := String.ext he
    rw [hs] at ht
    exact absurd ht (by decide)
  | arr xs =>
    intro hnil
    simp only [Json.pyElems, Option.some.injEq] at he
    rw [hnil] at he
    rw [he] at ht
    simp [Json.truthy] at ht
  | obj fs =>
    intro hnil
    simp only [Json.pyElems, Option.some.injEq] at he
    rw [hnil] at he
    rw [List.map_eq_nil_iff] at he
    rw [he] at ht
    simp [Json.truthy] at ht


/-- Inversion of a continuing loop iteration: the transport returned a truthy, full page, and both counters and the accumulator advanced by the number of items actually returned. -/
lemma loop_step_next_inv (source : Nat → Nat → HttpResp) (bu : String) (p : Nat)
    (mp : Option Nat) (st st' : LoopState)
    (h : loop_step source bu p mp st = .next st') :
    ∃ lim data items,
      current_limit p mp st.total_fetched = some lim ∧
      source st.skip lim = .resp 200 data ∧
      data.truthy = true ∧
      data.pyElems = some items ∧
      ¬ items.length < lim ∧
      st' = ⟨st.skip + items.length, st.total_fetched + items.length,
             st.all_polls ++ items⟩ := by
  unfold loop_step at h
  split at h
  · cases h
  · rename_i lim hcl
    split at h
    · cases h
    · cases h
    · rename_i status data sk lm rc hfp
      obtain ⟨hresp, _, _, _, _⟩ :=
        fetch_polls_ok_success_inv st.skip lim bu (source st.skip lim) status data sk lm rc hfp
      split at h
      · rename_i htr
        split at h
        · cases h
        · rename_i items hel
          split at h
          · cases h
          · rename_i hshort
            cases h
            exact ⟨lim, data, items, hcl, hresp, htr, hel, hshort, rfl⟩
      · cases h


/-- Inversion of an iteration that ends the loop with a success dictionary: the dictionary is built by `finish` from either the current state (remainder break or empty page) or the state updated with one short page. -/
lemma loop_step_done_success_inv (source : Nat → Nat → HttpResp) (bu : String) (p : Nat)
    (mp : Option Nat) (st : LoopState) (d : List Json) (tc ps tr : Nat)
    (h : loop_step source bu p mp st = .done (.success d tc ps tr)) :
    ps = p ∧ p ≠ 0 ∧
    ∃ st2 : LoopState, d = st2.all_polls ∧ tc = st2.total_fetched ∧
      tr = total_requests st2.skip p ∧
      (st2 = st ∨ ∃ lim data items,
        current_limit p mp st.total_fetched = some lim ∧
        source st.skip lim = .resp 200 data ∧
        data.pyElems = some items ∧
        items.length < lim ∧
        st2 = ⟨st.skip + items.length, st.total_fetched + items.length,
               st.all_polls ++ items⟩) := by
  have hfin : ∀ st0 : LoopState, finish p st0 = .success d tc ps tr →
      ps = p ∧ p ≠ 0 ∧ d = st0.all_polls ∧ tc = st0.total_fetched ∧
        tr = total_requests st0.skip p := by
    intro st0 hf
    unfold finish at hf
    by_cases hp0 : p = 0
    · rw [if_pos hp0] at hf
      cases hf
    · rw [if_neg hp0] at hf
      simp only [AggOutcome.success.injEq] at hf
      obtain ⟨h1, h2, h3, h4⟩ := hf
      exact ⟨h3.symm, hp0, h1.symm, h2.symm, h4.symm⟩
  unfold loop_step at h
  split at h
  · rename_i hcl
    simp only [StepOut.done.injEq] at h
    obtain ⟨h1, h2, h3, h4, h5⟩ := hfin st h
    exact ⟨h1, h2, st, h3, h4, h5, Or.inl rfl⟩
  · rename_i lim hcl
    split at h
    · cases h
    · cases h
    · rename_i status data sk lm rc hfp
      obtain ⟨hresp, _, _, _, _⟩ :=
        fetch_polls_ok_success_inv st.skip lim bu (source st.skip lim) status data sk lm rc hfp
      split at h
      · rename_i htr
        split at h
        · cases h
        · rename_i items hel
          split at h
          · rename_i hshort
            simp only [StepOut.done.injEq] at h
            obtain ⟨h1, h2, h3, h4, h5⟩ := hfin _ h
            exact ⟨h1, h2, _, h3, h4, h5,
              Or.inr ⟨lim, data, items, hcl, hresp, hel, hshort, rfl⟩⟩
          · cases h
      · rename_i htr
        simp only [StepOut.done.injEq] at h
        obtain ⟨h1, h2, h3, h4, h5⟩ := hfin st h
        exact ⟨h1, h2, st, h3, h4, h5, Or.inl rfl⟩


/-- When a page limit is produced under `max_polls = M`, the total fetched so far is below `M` and the limit is `min page_size (M - total_fetched)`. -/
lemma current_limit_max_some_inv (p M t lim : Nat)
    (h : current_limit p (some M) t = some lim) : t < M ∧ lim = min p (M - t) := by
  dsimp only [current_limit] at h
  by_cases hg : M ≤ t
  · rw [if_pos hg] at h
    cases h
  · rw [if_neg hg] at h
    simp only [Option.some.injEq] at h
    exact ⟨by omega, h.symm⟩


/-- The simulated source never returns more items than requested. -/
lemma simSource_bounded (records : List Json) : BoundedSource (simSource records) := by
  intro skip limit body xs hresp hel
  simp only [simSource, HttpResp.resp.injEq] at hresp
  rw [← hresp.2] at hel
  simp only [Json.pyElems, Option.some.injEq] at hel
  rw [← hel, List.length_take]
  omega


/-- Any success dictionary produced by the loop from a state with `skip = total_fetched` reports `page_size` itself and `total_requests` computed from `total_count`, because both counters advance together. -/
lemma loop_success_requests (source : Nat → Nat → HttpResp) (bu : String) (p : Nat)
    (mp : Option Nat) :
    ∀ (fuel : Nat) (st : LoopState), st.skip = st.total_fetched →
    ∀ (d : List Json) (tc ps tr : Nat),
      fetch_all_polls_loop source bu p mp fuel st = .success d tc ps tr →
      ps = p ∧ p ≠ 0 ∧ tr = total_requests tc p := by
  intro fuel
  induction fuel with
  | zero =>
    intro st h d tc ps tr hrun
    cases hrun
  | succ n ih =>
    intro st hskip d tc ps tr hrun
    rw [show fetch_all_polls_loop source bu p mp (n + 1) st
        = (match loop_step source bu p mp st with
           | .done o => o
           | .next st2 => fetch_all_polls_loop source bu p mp n st2) from rfl] at hrun
    rcases hstep : loop_step source bu p mp st with o | st2
    · rw [hstep] at hrun
      subst hrun
      obtain ⟨hps, hp0, st2, hd, htc, htr2, hcase⟩ :=
        loop_step_done_success_inv source bu p mp st d tc ps tr hstep
      refine ⟨hps, hp0, ?_⟩
      rcases hcase with heq | ⟨lim, data, items, hcl, hresp, hel, hshort, hst2⟩
      · subst heq
        rw [htr2, htc, hskip]
      · subst hst2
        rw [htr2, htc]
        show total_requests (st.skip + items.length) p
          = total_requests (st.total_fetched + items.length) p
        rw [hskip]
    · rw [hstep] at hrun
      obtain ⟨lim, data, items, hcl, hresp, htr, hel, hshort, hst2⟩ :=
        loop_step_next_inv source bu p mp st st2 hstep
      refine ih st2 ?_ d tc ps tr hrun
      subst hst2
      show st.skip + items.length = st.total_fetched + items.length
      rw [hskip]


/-- The `total_requests` expression is the ceiling of `n / p` for positive `p`. -/
lemma total_requests_eq_ceil (n p : Nat) (hp : 0 < p) :
    total_requests n p = (n + p - 1) / p := by
  unfold total_requests
  have hmod := Nat.mod_lt n hp
  have hdm := Nat.div_add_mod n p
  rcases Nat.eq_zero_or_pos (n % p) with h0 | hpos
  · rw [if_neg (by omega)]
    have h1 : n + p - 1 = (p - 1) + p * (n / p) := by omega
    rw [h1, Nat.add_mul_div_left _ _ hp, Nat.div_eq_of_lt (show p - 1 < p by omega)]
    omega
  · rw [if_pos (by omega)]
    have hmul : p * (n / p + 1) = p * (n / p) + p := Nat.mul_succ p (n / p)
    have h1 : n + p - 1 = (n % p - 1) + p * (n / p + 1) := by omega
    rw [h1, Nat.add_mul_div_left _ _ hp, Nat.div_eq_of_lt (show n % p - 1 < p by omega)]
    omega


/-- Enumerating a list of dicts never raises. -/
lemma render_options_ok (opts : List Json) (h : opts.all Json.isObj = true) :
    ∀ idx, ∃ lines, render_options idx opts = .ok lines := by
  induction opts with
  | nil => intro idx; exact ⟨[], rfl⟩
  | cons o rest ih =>
    intro idx
    simp only [List.all_cons, Bool.and_eq_true] at h
    obtain ⟨ho, hrest⟩ := h
    obtain ⟨lines, hl⟩ := ih hrest (idx + 1)
    cases o with
    | obj fs =>
      have heq : render_options idx (Json.obj fs :: rest)
          = .ok (("   " ++ toString idx ++ ". "
              ++ (Json.pyStr (dict_get fs "text" (.str "N/A")))
              ++ " (ID: " ++ (Json.pyStr (dict_get fs "id" (.str "N/A"))) ++ ")") :: lines) := by
        simp only [render_options, render_option, hl]
        rfl
      exact ⟨_, heq⟩
    | null => simp [Json.isObj] at ho
    | bool b => simp [Json.isObj] at ho
    | num n => simp [Json.isObj] at ho
    | str s => simp [Json.isObj] at ho
    | arr xs => simp [Json.isObj] at ho


/-- When `created_at` is absent or a string, the `formatted_date` computation does not raise, and an unparsable string falls back to the raw string. -/
lemma formatted_date_ok (fca : String → Option String) (poll : PyDict)
    (h : (match poll.lookup "created_at" with
          | none => true
          | some v => v.isStr) = true) :
    ∃ fd, formatted_date fca poll = .ok fd ∧
      (∀ s, poll.lookup "created_at" = some (.str s) →
        fca (s.replace "Z" "+00:00") = none → fd = .str s) := by
  rcases hl : poll.lookup "created_at" with _ | v
  · refine ⟨dict_get poll "created_at" (.str "Unknown"), ?_, ?_⟩
    · simp only [formatted_date, hl]
      rfl
    · intro s hs
      cases hs
  · cases v with
    | str s0 =>
      rcases hf : fca (s0.replace "Z" "+00:00") with _ | d
      · refine ⟨.str s0, ?_, ?_⟩
        · simp only [formatted_date, hl, hf, dict_get, Option.getD_some]
          rfl
        · intro s hs hnone
          simp only [Option.some.injEq, Json.str.injEq] at hs
          rw [hs]
      · refine ⟨.str d, ?_, ?_⟩
        · simp only [formatted_date, hl, hf]
          rfl
        · intro s hs hnone
          simp only [Option.some.injEq, Json.str.injEq] at hs
          rw [← hs] at hnone
          rw [hnone] at hf
          cases hf
    | null =>
      rw [hl] at h
      simp [Json.isStr] at h
    | bool b =>
      rw [hl] at h
      simp [Json.isStr] at h
    | num n =>
      rw [hl] at h
      simp [Json.isStr] at h
    | arr xs =>
      rw [hl] at h
      simp [Json.isStr] at h
    | obj fs =>
      rw [hl] at h
      simp [Json.isStr] at h


/-- When the `options` value is absent, falsy, or a list of dicts, the options block does not raise, and an empty list prints the "None" marker. -/
lemma options_lines_ok (poll : PyDict)
    (h : (match poll.lookup "options" with
          | none => true
          | some v => safe_options v) = true) :
    ∃ ls, options_lines poll = .ok ls ∧
      (poll.lookup "options" = some (.arr []) → ls = ["📝 Options: None"]) := by
  rcases hl : poll.lookup "options" with _ | v
  · refine ⟨["📝 Options: None"], ?_, fun _ => rfl⟩
    simp only [options_lines, dict_get, hl]
    rfl
  · by_cases htr : v.truthy
    · cases v with
      | arr xs =>
        have h3 : (!(Json.arr xs).truthy || xs.all Json.isObj) = true := by
          rw [hl] at h
          exact h
        rw [htr] at h3
        simp only [Bool.not_true, Bool.false_or] at h3
        obtain ⟨lines, hlines⟩ := render_options_ok xs h3 1
        have heq : options_lines poll = .ok ("📝 Options:" :: lines) := by
          simp only [options_lines, dict_get, hl, Option.getD_some, htr, if_true,
            Json.pyElems, hlines]
          rfl
        refine ⟨"📝 Options:" :: lines, heq, ?_⟩
        intro hx
        simp only [Option.some.injEq, Json.arr.injEq] at hx
        rw [hx] at htr
        simp [Json.truthy] at htr
      | null => simp [Json.truthy] at htr
      | bool b =>
        have h3 : (!(Json.bool b).truthy || false) = true := by
          rw [hl] at h
          exact h
        rw [htr] at h3
        simp at h3
      | num n =>
        have h3 : (!(Json.num n).truthy || false) = true := by
          rw [hl] at h
          exact h
        rw [htr] at h3
        simp at h3
      | str s =>
        have h3 : (!(Json.str s).truthy || false) = true := by
          rw [hl] at h
          exact h
        rw [htr] at h3
        simp at h3
      | obj fs =>
        have h3 : (!(Json.obj fs).truthy || false) = true := by
          rw [hl] at h
          exact h
        rw [htr] at h3
        simp at h3
    · refine ⟨["📝 Options: None"], ?_, fun _ => rfl⟩
      simp only [options_lines, dict_get, hl, Option.getD_some]
      rw [if_neg htr]
      rfl


/-- On a safe record the loop body prints the four field lines, then the options block, then the separator, without raising. -/
lemma render_poll_ok_of_safe (fca : String → Option String) (poll : PyDict)
    (hsafe : SafeRecord poll = true) :
    ∃ (fd : Json) (optLines : List String),
      render_poll fca poll = .ok
        (("\n🗳️  Poll ID: " ++ Json.pyStr (dict_get poll "id" (.str "N/A"))) ::
         ("❓ Question: " ++ Json.pyStr (dict_get poll "question" (.str "N/A"))) ::
         ("👤 Owner ID: " ++ Json.pyStr (dict_get poll "owner_id" (.str "N/A"))) ::
         ("📅 Created: " ++ Json.pyStr fd) ::
         (optLines ++ [dash40])) ∧
      (∀ s, poll.lookup "created_at" = some (.str s) →
        fca (s.replace "Z" "+00:00") = none → fd = .str s) ∧
      (poll.lookup "options" = some (.arr []) → optLines = ["📝 Options: None"]) := by
  unfold SafeRecord at hsafe
  rw [Bool.and_eq_true] at hsafe
  obtain ⟨h1, h2⟩ := hsafe
  obtain ⟨fd, hfd, hfdprop⟩ := formatted_date_ok fca poll h1
  obtain ⟨ls, hls, hlsprop⟩ := options_lines_ok poll h2
  refine ⟨fd, ls, ?_, hfdprop, hlsprop⟩
  simp only [render_poll, hfd, hls]
  rfl


/-- On a list of safe records the display loop never raises. -/
lemma render_polls_ok (fca : String → Option String) :
    ∀ polls : List PyDict, (∀ poll ∈ polls, SafeRecord poll = true) →
    ∃ lines, render_polls fca polls = .ok lines := by
  intro polls
  induction polls with
  | nil => intro h; exact ⟨[], rfl⟩
  | cons poll rest ih =>
    intro h
    obtain ⟨fd, ol, heq, hprop1, hprop2⟩ :=
      render_poll_ok_of_safe fca poll (h poll (by simp))
    obtain ⟨restLines, hrest⟩ := ih (fun q hq => h q (by simp [hq]))
    refine ⟨(("\n🗳️  Poll ID: " ++ Json.pyStr (dict_get poll "id" (.str "N/A"))) ::
         ("❓ Question: " ++ Json.pyStr (dict_get poll "question" (.str "N/A"))) ::
         ("👤 Owner ID: " ++ Json.pyStr (dict_get poll "owner_id" (.str "N/A"))) ::
         ("📅 Created: " ++ Json.pyStr fd) ::
         (ol ++ [dash40])) ++ restLines, ?_⟩
    simp only [render_polls, heq, hrest]
    rfl


/-- Claim C1: against a simulated source holding exactly `N = records.length` poll records, answering each request with at most the requested limit of items in order, `fetch_all_polls` with any `pageSize ≥ 1` and no `max_polls` terminates (fuel `N + 1` suffices) and returns a success whose `total_count` is `N` and whose `data` is the full record set in original order. -/
theorem c1_fetch_all_polls_sim_total (records : List Json) (bu : String) (p : Nat)
    (hp : 1 ≤ p) :
    fetch_all_polls (simSource records) bu p none (records.length + 1)
      = .success records records.length p (total_requests records.length p) := by
  have h := loop_sim records bu p hp (records.length + 1) 0 0 [] (by omega) (by omega)
  simpa [fetch_all_polls] using h


/-- Witness for C1 at three records and page size 2. -/
theorem c1_witness :
    1 ≤ 2 ∧ fetch_all_polls (simSource [Json.null, Json.null, Json.null])
        "http://localhost:8000" 2 none 4
      = .success [Json.null, Json.null, Json.null] 3 2 (total_requests 3 2) :=
  ⟨by decide, c1_fetch_all_polls_sim_total [Json.null, Json.null, Json.null]
    "http://localhost:8000" 2 (by decide)⟩


/-- Claim C2: with `max_polls = M`, `0 < M < N`, `fetch_all_polls` over the simulated source returns exactly `M` records for every `pageSize ≥ 1`; against any source that respects the requested limit the accumulated count never exceeds `M` at any point of the loop, whether the iteration continues or ends with a success; each page requests `min(pageSize, M - totalFetched)` items; and as soon as the remainder is not positive the loop terminates normally with the success dictionary. -/
theorem c2_max_polls_cap (records : List Json) (bu : String) (p M : Nat)
    (hp : 1 ≤ p) (hM : 1 ≤ M) (hMN : M < records.length) :
    (fetch_all_polls (simSource records) bu p (some M) (M + 1)
        = .success (records.take M) M p (total_requests M p)
      ∧ (records.take M).length = M) ∧
    (∀ source : Nat → Nat → HttpResp, BoundedSource source →
      ∀ st st' : LoopState,
        st.all_polls.length = st.total_fetched → st.total_fetched ≤ M →
        loop_step source bu p (some M) st = .next st' →
        st'.all_polls.length = st'.total_fetched ∧ st'.total_fetched ≤ M) ∧
    (∀ source : Nat → Nat → HttpResp, BoundedSource source →
      ∀ (st : LoopState) (d : List Json) (tc ps tr : Nat),
        st.all_polls.length = st.total_fetched → st.total_fetched ≤ M →
        loop_step source bu p (some M) st = .done (.success d tc ps tr) →
        d.length = tc ∧ tc ≤ M) ∧
    (∀ t, t < M → current_limit p (some M) t = some (min p (M - t))) ∧
    (∀ (source : Nat → Nat → HttpResp) (st : LoopState), M ≤ st.total_fetched →
      loop_step source bu p (some M) st
        = .done (.success st.all_polls st.total_fetched p (total_requests st.skip p))) := by
  refine ⟨⟨?_, ?_⟩, ?_, ?_, ?_, ?_⟩
  · have h := loop_sim_max records bu p M hp hMN (M + 1) 0 [] (by omega) (by omega)
    simpa [fetch_all_polls] using h
  · rw [List.length_take]
    omega
  · intro source hB st st' hlen hle hstep
    obtain ⟨lim, data, items, hcl, hresp, htr, hel, hshort, hst'⟩ :=
      loop_step_next_inv source bu p (some M) st st' hstep
    obtain ⟨htM, hlim⟩ := current_limit_max_some_inv p M st.total_fetched lim hcl
    have hb := hB st.skip lim data items hresp hel
    subst hst'
    refine ⟨by simp [hlen], ?_⟩
    show st.total_fetched + items.length ≤ M
    omega
  · intro source hB st d tc ps tr hlen hle hstep
    obtain ⟨hps, hp0, st2, hd, htc, htr2, hcase⟩ :=
      loop_step_done_success_inv source bu p (some M) st d tc ps tr hstep
    rcases hcase with heq | ⟨lim, data, items, hcl, hresp, hel, hshort, hst2⟩
    · subst heq
      subst hd htc
      exact ⟨hlen, hle⟩
    · obtain ⟨htM, hlim⟩ := current_limit_max_some_inv p M st.total_fetched lim hcl
      have hb := hB st.skip lim data items hresp hel
      subst hst2
      subst hd htc
      constructor
      · show (st.all_polls ++ items).length = st.total_fetched + items.length
        simp [hlen]
      · show st.total_fetched + items.length ≤ M
        omega
  · intro t ht
    dsimp only [current_limit]
    rw [if_neg (by omega)]
  · intro source st hge
    rw [loop_step_max_done source bu p M st hge]
    unfold finish
    rw [if_neg (by omega)]


/-- Witness for C2 at three records, `M = 2`, page size 5. -/
theorem c2_witness :
    1 ≤ 5 ∧ 1 ≤ 2 ∧ 2 < ([Json.null, Json.bool true, Json.num 3] : List Json).length ∧
    ((fetch_all_polls (simSource [Json.null, Json.bool true, Json.num 3]) "u" 5 (some 2) 3
        = .success ([Json.null, Json.bool true, Json.num 3].take 2) 2 5 (total_requests 2 5)
      ∧ ([Json.null, Json.bool true, Json.num 3].take 2).length = 2) ∧
    (∀ source : Nat → Nat → HttpResp, BoundedSource source →
      ∀ st st' : LoopState,
        st.all_polls.length = st.total_fetched → st.total_fetched ≤ 2 →
        loop_step source "u" 5 (some 2) st = .next st' →
        st'.all_polls.length = st'.total_fetched ∧ st'.total_fetched ≤ 2) ∧
    (∀ source : Nat → Nat → HttpResp, BoundedSource source →
      ∀ (st : LoopState) (d : List Json) (tc ps tr : Nat),
        st.all_polls.length = st.total_fetched → st.total_fetched ≤ 2 →
        loop_step source "u" 5 (some 2) st = .done (.success d tc ps tr) →
        d.length = tc ∧ tc ≤ 2) ∧
    (∀ t, t < 2 → current_limit 5 (some 2) t = some (min 5 (2 - t))) ∧
    (∀ (source : Nat → Nat → HttpResp) (st : LoopState), 2 ≤ st.total_fetched →
      loop_step source "u" 5 (some 2) st
        = .done (.success st.all_polls st.total_fetched 5 (total_requests st.skip 5)))) :=
  ⟨by decide, by decide, by decide,
    c2_max_polls_cap [Json.null, Json.bool true, Json.num 3] "u" 5 2
      (by decide) (by decide) (by decide)⟩


/-- Claim C3: if the transport call of an iteration returns a failure dictionary, `fetch_all_polls` returns that exact failure object unchanged, and the records accumulated before the failing page are discarded: the outcome is the same for every accumulator contents and carries no poll data. -/
theorem c3_failure_propagated (source : Nat → Nat → HttpResp) (bu : String) (p : Nat)
    (mp : Option Nat) (fuel : Nat) (st : LoopState) (lim : Nat)
    (sc : Option Nat) (err : Json)
    (hcl : current_limit p mp st.total_fetched = some lim)
    (hfail : fetch_polls st.skip lim bu (source st.skip lim) = .ok (.failure sc err)) :
    fetch_all_polls_loop source bu p mp (fuel + 1) st = .failure (.failure sc err) ∧
    ∀ acc' : List Json,
      fetch_all_polls_loop source bu p mp (fuel + 1) ⟨st.skip, st.total_fetched, acc'⟩
        = .failure (.failure sc err) := by
  have key : ∀ acc' : List Json,
      loop_step source bu p mp ⟨st.skip, st.total_fetched, acc'⟩
        = .done (.failure (.failure sc err)) := by
    intro acc'
    simp only [loop_step, hcl, hfail]
  constructor
  · have h1 := key st.all_polls
    rw [show (⟨st.skip, st.total_fetched, st.all_polls⟩ : LoopState) = st from rfl] at h1
    rw [show fetch_all_polls_loop source bu p mp (fuel + 1) st
        = (match loop_step source bu p mp st with
           | .done o => o
           | .next st' => fetch_all_polls_loop source bu p mp fuel st') from rfl, h1]
  · intro acc'
    rw [show fetch_all_polls_loop source bu p mp (fuel + 1) ⟨st.skip, st.total_fetched, acc'⟩
        = (match loop_step source bu p mp ⟨st.skip, st.total_fetched, acc'⟩ with
           | .done o => o
           | .next st' => fetch_all_polls_loop source bu p mp fuel st') from rfl, key acc']


/-- Witness for C3: a source whose second page raises a connection error, after one successful page. -/
theorem c3_witness :
    current_limit 1 none ((⟨1, 1, [Json.null]⟩ : LoopState).total_fetched) = some 1 ∧
    fetch_polls 1 1 "u"
        ((fun skip _ => if skip = 0 then HttpResp.resp 200 (.arr [Json.null]) else .connError) 1 1)
      = .ok (.failure none (.str (connErrorMsg "u"))) ∧
    (fetch_all_polls_loop
        (fun skip _ => if skip = 0 then HttpResp.resp 200 (.arr [Json.null]) else .connError)
        "u" 1 none (5 + 1) ⟨1, 1, [Json.null]⟩
      = .failure (.failure none (.str (connErrorMsg "u"))) ∧
    ∀ acc' : List Json,
      fetch_all_polls_loop
        (fun skip _ => if skip = 0 then HttpResp.resp 200 (.arr [Json.null]) else .connError)
        "u" 1 none (5 + 1) ⟨1, 1, acc'⟩
      = .failure (.failure none (.str (connErrorMsg "u")))) :=
  ⟨rfl, rfl,
    c3_failure_propagated
      (fun skip _ => if skip = 0 then HttpResp.resp 200 (.arr [Json.null]) else .connError)
      "u" 1 none 5 ⟨1, 1, [Json.null]⟩ 1 none (.str (connErrorMsg "u")) rfl rfl⟩


/-- Counterexample to C4 as stated: when the server answers a `limit = 1` request with two items, `fetch_polls` returns a success whose `returned_count` is 2, and `2 ≤ 1` fails — the wrapper does not truncate over-long bodies. -/
theorem c4_counterexample :
    fetch_polls 0 1 "u" (.resp 200 (.arr [Json.null, Json.null]))
      = .ok (.success 200 (.arr [Json.null, Json.null]) 0 1 2) ∧ ¬ (2 ≤ 1) :=
  ⟨rfl, by decide⟩


/-- Claim C4 (amended): every success of `fetch_polls` has `returned_count` equal to `len(data)` and echoes `skip` and `limit`; `returned_count ≤ limit` holds whenever the response body holds at most `limit` items. -/
theorem c4_amended_returned_count (skip limit : Nat) (bu : String) (resp : HttpResp)
    (status : Nat) (data : Json) (sk lm rc : Nat)
    (h : fetch_polls skip limit bu resp = .ok (.success status data sk lm rc)) :
    (data.pyLen = some rc ∧ sk = skip ∧ lm = limit ∧ status = 200) ∧
    (∀ xs, data = .arr xs → xs.length ≤ limit → rc ≤ limit) := by
  obtain ⟨hresp, h200, hsk, hlm, hlen⟩ :=
    fetch_polls_ok_success_inv skip limit bu resp status data sk lm rc h
  refine ⟨⟨hlen, hsk, hlm, h200⟩, ?_⟩
  intro xs hxs hle
  rw [hxs] at hlen
  simp only [Json.pyLen, Option.some.injEq] at hlen
  omega


/-- Witness for C4 (amended) at `skip = 0`, `limit = 5` and a one-element body. -/
theorem c4_witness :
    fetch_polls 0 5 "u" (.resp 200 (.arr [Json.null]))
      = .ok (.success 200 (.arr [Json.null]) 0 5 1) ∧
    (((Json.arr [Json.null]).pyLen = some 1 ∧ (0 : Nat) = 0 ∧ (5 : Nat) = 5
        ∧ (200 : Nat) = 200) ∧
      (∀ xs, Json.arr [Json.null] = .arr xs → xs.length ≤ 5 → 1 ≤ 5)) :=
  ⟨rfl, c4_amended_returned_count 0 5 "u" (.resp 200 (.arr [Json.null])) 200
    (.arr [Json.null]) 0 5 1 rfl⟩


/-- Claim C5: a continuing loop iteration appends the page items to the accumulator and advances both `skip` and `total_fetched` by the number of items actually returned (a nonempty page, so the next requested offset is strictly larger); in particular `skip = total_fetched` is preserved, so each request offset equals the running total and no record position is requested twice. -/
theorem c5_no_double_count (source : Nat → Nat → HttpResp) (bu : String) (p : Nat)
    (mp : Option Nat) (st st' : LoopState)
    (hstep : loop_step source bu p mp st = .next st') :
    (∃ current_polls : List Json, current_polls ≠ [] ∧
      st'.all_polls = st.all_polls ++ current_polls ∧
      st'.skip = st.skip + current_polls.length ∧
      st'.total_fetched = st.total_fetched + current_polls.length) ∧
    (st.skip = st.total_fetched → st'.skip = st'.total_fetched) := by
  obtain ⟨lim, data, items, hcl, hresp, htr, hel, hshort, hst'⟩ :=
    loop_step_next_inv source bu p mp st st' hstep
  have hne := truthy_elems_ne_nil data items htr hel
  subst hst'
  exact ⟨⟨items, hne, rfl, rfl, rfl⟩, fun h => by
    show st.skip + items.length = st.total_fetched + items.length
    rw [h]⟩


/-- Witness for C5 at a two-record simulated source with page size 1. -/
theorem c5_witness :
    loop_step (simSource [Json.null, Json.null]) "u" 1 none ⟨0, 0, []⟩
      = .next ⟨1, 1, [Json.null]⟩ ∧
    ((∃ current_polls : List Json, current_polls ≠ [] ∧
        [Json.null] = [] ++ current_polls ∧
        1 = 0 + current_polls.length ∧
        1 = 0 + current_polls.length) ∧
      ((0 : Nat) = 0 → (1 : Nat) = 1)) :=
  ⟨rfl, c5_no_double_count (simSource [Json.null, Json.null]) "u" 1 none
    ⟨0, 0, []⟩ ⟨1, 1, [Json.null]⟩ rfl⟩


/-- Claim C6: `register_user` returns a success with the decoded body exactly when the response status is 200 (for the object bodies the endpoint returns); status 400 and every other non-200 status return the same failure dictionary carrying that status code and the decoded body — the branches differ only in logging. -/
theorem c6_register_status_branches (u pw bu : String) (status : Nat) (body : Json) :
    (status = 200 → ∀ fs, body = .obj fs →
      register_user u pw bu (.resp status body) = .ok (.success status body)) ∧
    (status ≠ 200 →
      register_user u pw bu (.resp status body) = .ok (.failure (some status) body)) ∧
    (∀ (sc : Nat) (d : Json),
      register_user u pw bu (.resp status body) = .ok (.success sc d) →
      status = 200 ∧ sc = 200 ∧ d = body) := by
  refine ⟨?_, ?_, ?_⟩
  · intro h200 fs hfs
    subst h200
    subst hfs
    simp [register_user]
  · intro h
    simp only [register_user]
    rw [if_neg h, ite_self]
  · intro sc d h
    by_cases h200 : status = 200
    · subst h200
      cases body with
      | obj fs =>
        have h2 : Except.ok (RegistrationResult.success 200 (Json.obj fs))
            = Except.ok (RegistrationResult.success sc d) := h
        simp only [Except.ok.injEq, RegistrationResult.success.injEq] at h2
        exact ⟨rfl, h2.1.symm, h2.2.symm⟩
      | null =>
        have h2 : (Except.error PyExn.attributeError : Except PyExn RegistrationResult)
            = Except.ok (RegistrationResult.success sc d) := h
        cases h2
      | bool b =>
        have h2 : (Except.error PyExn.attributeError : Except PyExn RegistrationResult)
            = Except.ok (RegistrationResult.success sc d) := h
        cases h2
      | num n =>
        have h2 : (Except.error PyExn.attributeError : Except PyExn RegistrationResult)
            = Except.ok (RegistrationResult.success sc d) := h
        cases h2
      | str s =>
        have h2 : (Except.error PyExn.attributeError : Except PyExn RegistrationResult)
            = Except.ok (RegistrationResult.success sc d) := h
        cases h2
      | arr xs =>
        have h2 : (Except.error PyExn.attributeError : Except PyExn RegistrationResult)
            = Except.ok (RegistrationResult.success sc d) := h
        cases h2
    · simp only [register_user] at h
      rw [if_neg h200, ite_self] at h
      simp at h


/-- Witness for C6 at statuses 200, 400 and 500. -/
theorem c6_witness :
    register_user "a" "b" "u" (.resp 200 (.obj [])) = .ok (.success 200 (.obj [])) ∧
    register_user "a" "b" "u" (.resp 400 (.str "dup")) = .ok (.failure (some 400) (.str "dup")) ∧
    register_user "a" "b" "u" (.resp 500 (.str "err")) = .ok (.failure (some 500) (.str "err")) :=
  ⟨(c6_register_status_branches "a" "b" "u" 200 (.obj [])).1 rfl [] rfl,
    (c6_register_status_branches "a" "b" "u" 400 (.str "dup")).2.1 (by decide),
    (c6_register_status_branches "a" "b" "u" 500 (.str "err")).2.1 (by decide)⟩


/-- Counterexample to C7 as stated: a record whose `created_at` is the number 5 makes `display_polls` raise `AttributeError` — `poll["created_at"].replace` is only guarded against `ValueError` and `KeyError`, so an ill-typed field does not fall back to a placeholder. -/
theorem c7_counterexample :
    display_polls (fun _ => none) [[("created_at", Json.num 5)]]
      = .error .attributeError := rfl


/-- Claim C7 (amended): `display_polls` on the empty list emits the single "nothing to display" notice and nothing else; it never raises on records whose `created_at`, when present, is a string and whose `options`, when present, is falsy or a list of objects; missing fields are replaced by the placeholders `N/A`, `Unknown` and the "Options: None" marker. -/
theorem c7_amended_no_raise (fca : String → Option String) (polls_data : List PyDict) :
    (polls_data = [] → display_polls fca polls_data = .ok ["📭 No polls to display"]) ∧
    ((∀ poll ∈ polls_data, SafeRecord poll = true) →
      ∃ lines, display_polls fca polls_data = .ok lines) ∧
    render_poll fca [] = .ok ["\n🗳️  Poll ID: N/A", "❓ Question: N/A",
      "👤 Owner ID: N/A", "📅 Created: Unknown", "📝 Options: None", dash40] := by
  refine ⟨?_, ?_, ?_⟩
  · intro h
    subst h
    rfl
  · intro h
    cases polls_data with
    | nil => exact ⟨["📭 No polls to display"], rfl⟩
    | cons poll rest =>
      obtain ⟨blocks, hblocks⟩ := render_polls_ok fca (poll :: rest) h
      refine ⟨("\n📊 Displaying " ++ toString (poll :: rest).length ++ " polls:")
          :: sep60 :: blocks, ?_⟩
      simp only [display_polls, List.isEmpty_cons, hblocks]
      rfl
  · rfl


/-- Witness for C7 (amended) on the empty list, a safe one-record list, and the empty record. -/
theorem c7_witness :
    display_polls (fun _ => none) [] = .ok ["📭 No polls to display"] ∧
    (∃ lines, display_polls (fun _ => none) [[("id", Json.num 1)]] = .ok lines) ∧
    render_poll (fun _ => none) [] = .ok ["\n🗳️  Poll ID: N/A", "❓ Question: N/A",
      "👤 Owner ID: N/A", "📅 Created: Unknown", "📝 Options: None", dash40] :=
  ⟨(c7_amended_no_raise (fun _ => none) []).1 rfl,
   (c7_amended_no_raise (fun _ => none) [[("id", Json.num 1)]]).2.1 (by decide),
   (c7_amended_no_raise (fun _ => none) []).2.2⟩


/-- Claim C8: for a record whose `created_at` string cannot be parsed as a timestamp, `display_polls` renders the raw string unchanged without failing, and for a record whose options sequence is empty it renders the explicit "Options: None" marker. -/
theorem c8_display_fallbacks (fca : String → Option String) (poll : PyDict) (s : String)
    (hsafe : SafeRecord poll = true) :
    (poll.lookup "created_at" = some (.str s) → fca (s.replace "Z" "+00:00") = none →
      ∃ lines, render_poll fca poll = .ok lines ∧ ("📅 Created: " ++ s) ∈ lines) ∧
    (poll.lookup "options" = some (.arr []) →
      ∃ lines, render_poll fca poll = .ok lines ∧ "📝 Options: None" ∈ lines) := by
  obtain ⟨fd, ol, heq, hfdprop, holprop⟩ := render_poll_ok_of_safe fca poll hsafe
  constructor
  · intro h1 h2
    refine ⟨_, heq, ?_⟩
    rw [hfdprop s h1 h2]
    exact List.mem_cons_of_mem _ (List.mem_cons_of_mem _ (List.mem_cons_of_mem _
      (List.mem_cons_self _ _)))
  · intro h1
    refine ⟨_, heq, ?_⟩
    rw [holprop h1]
    exact List.mem_cons_of_mem _ (List.mem_cons_of_mem _ (List.mem_cons_of_mem _
      (List.mem_cons_of_mem _ (List.mem_cons_self _ _))))


/-- Witness for C8 on a record with an unparsable `created_at` and empty options. -/
theorem c8_witness :
    SafeRecord [("created_at", Json.str "notadate"), ("options", Json.arr [])] = true ∧
    (∃ lines, render_poll (fun _ => none)
        [("created_at", Json.str "notadate"), ("options", Json.arr [])] = .ok lines ∧
      ("📅 Created: " ++ "notadate") ∈ lines) ∧
    (∃ lines, render_poll (fun _ => none)
        [("created_at", Json.str "notadate"), ("options", Json.arr [])] = .ok lines ∧
      "📝 Options: None" ∈ lines) :=
  ⟨by decide,
   (c8_display_fallbacks (fun _ => none)
     [("created_at", Json.str "notadate"), ("options", Json.arr [])] "notadate"
     (by decide)).1 rfl rfl,
   (c8_display_fallbacks (fun _ => none)
     [("created_at", Json.str "notadate"), ("options", Json.arr [])] "notadate"
     (by decide)).2 rfl⟩


/-- Claim C9: connection faults, JSON-decode faults and non-200 application responses are all returned by `fetch_polls` and `register_user` as failure dictionaries, never raised: the local faults carry a descriptive message and no status code, the application faults carry the status code and the server body verbatim. -/
theorem c9_faults_as_data (skip limit : Nat) (u pw bu : String) :
    (fetch_polls skip limit bu .connError = .ok (.failure none (.str (connErrorMsg bu)))) ∧
    (fetch_polls skip limit bu .jsonDecodeError = .ok (.failure none (.str jsonErrorMsg))) ∧
    (∀ (status : Nat) (body : Json), status ≠ 200 →
      fetch_polls skip limit bu (.resp status body) = .ok (.failure (some status) body)) ∧
    (register_user u pw bu .connError = .ok (.failure none (.str (connErrorMsg bu)))) ∧
    (register_user u pw bu .jsonDecodeError = .ok (.failure none (.str jsonErrorMsg))) ∧
    (∀ (status : Nat) (body : Json), status ≠ 200 →
      register_user u pw bu (.resp status body) = .ok (.failure (some status) body)) := by
  refine ⟨rfl, rfl, ?_, rfl, rfl, ?_⟩
  · intro status body h
    simp only [fetch_polls]
    rw [if_neg h]
  · intro status body h
    simp only [register_user]
    rw [if_neg h, ite_self]


/-- Witness for C9 at a connection fault and two application faults. -/
theorem c9_witness :
    fetch_polls 0 1 "u" .connError = .ok (.failure none (.str (connErrorMsg "u"))) ∧
    fetch_polls 0 1 "u" (.resp 404 (.str "e")) = .ok (.failure (some 404) (.str "e")) ∧
    register_user "a" "b" "u" (.resp 500 (.str "e")) = .ok (.failure (some 500) (.str "e")) :=
  ⟨(c9_faults_as_data 0 1 "a" "b" "u").1,
    (c9_faults_as_data 0 1 "a" "b" "u").2.2.1 404 (.str "e") (by decide),
    (c9_faults_as_data 0 1 "a" "b" "u").2.2.2.2.2 500 (.str "e") (by decide)⟩


/-- Claim C10: on every successful completion of `fetch_all_polls` the reported `total_requests` equals `ceil(total_count / page_size)` (the final `skip` always equals `total_count`); in particular it is 0 when the first page is empty even though one transport request was issued, so it is a derived count of full pages, not of HTTP calls. -/
theorem c10_total_requests (source : Nat → Nat → HttpResp) (bu : String) (p : Nat)
    (mp : Option Nat) (fuel : Nat) (d : List Json) (tc ps tr : Nat) (hp : 1 ≤ p)
    (hrun : fetch_all_polls source bu p mp fuel = .success d tc ps tr) :
    (ps = p ∧ tr = (tc + p - 1) / p) ∧
    fetch_all_polls (fun _ _ => .resp 200 (.arr [])) bu p none 1
      = .success [] 0 p 0 := by
  constructor
  · have h := loop_success_requests source bu p mp fuel ⟨0, 0, []⟩ rfl d tc ps tr hrun
    refine ⟨h.1, ?_⟩
    rw [h.2.2]
    exact total_requests_eq_ceil tc p (by omega)
  · rw [show fetch_all_polls (fun _ _ => HttpResp.resp 200 (Json.arr [])) bu p none 1
        = finish p ⟨0, 0, []⟩ from rfl]
    unfold finish
    rw [if_neg (by omega)]
    simp [total_requests]


/-- Witness for C10 at a one-record source with page size 1 and at the empty source. -/
theorem c10_witness :
    1 ≤ 1 ∧
    fetch_all_polls (simSource [Json.null]) "u" 1 none 2 = .success [Json.null] 1 1 1 ∧
    ((1 = 1 ∧ 1 = (1 + 1 - 1) / 1) ∧
      fetch_all_polls (fun _ _ => .resp 200 (.arr [])) "u" 1 none 1 = .success [] 0 1 0) :=
  ⟨by decide, rfl,
    c10_total_requests (simSource [Json.null]) "u" 1 none 2 [Json.null] 1 1 1 (by decide) rfl⟩
